import Mathlib

/-!
Shallow embedding of the rolling-stdev pipeline in
Parameta/stdev_test/scripts/calc_rolling_stdev.py (class
RollingPriceStdevCalculator).

Modelling conventions:
* Timestamps are hour counts (Nat): every pandas Timestamp handled by the
  pipeline lies on the hourly grid, so a timestamp is identified with its
  offset in hours from an arbitrary origin.  The fixed step of one hour is
  the successor on Nat.
* Float price values are modelled as exact rationals; a missing value (NaN
  in the dataframe) is Option.none.  A dataframe row is a structure Obs.
* math.sqrt of the loop body (line 79) is modelled by Real.sqrt.  The
  iterative deque pass itself is kept computable over the rationals: the
  loop computes, per emitting slot, the population variance (lines 77-79),
  and the final stdev = sqrt(var) together with the tiny-result floor of
  line 81 is applied as a per-slot map (applyStdevEps).  Since the loop
  body uses the square root and epsilon test only to post-process the
  variance of the current deque, this factoring is a pure refactor of the
  loop body.
* The three price columns bid/mid/ask are processed by the sole loop of
  _rolling_stdev_with_deques with one independent deque, value array and
  output array per column (the loop body indexes every piece of state by
  the column c and no state is shared between columns), so the engine is
  embedded as one per-column pass (rollingVars) applied to each column.
-/

namespace CalcRollingStdev

/-- Obs is one row of the price dataframe for one security: snap_time plus
the three nullable price columns (NaN modelled as none). -/
structure Obs where
  snap_time : Nat
  bid : Option ℚ
  mid : Option ℚ
  ask : Option ℚ
deriving DecidableEq

/-- hourly_index start stop embeds _hourly_index (line 30-31):
pd.date_range(start, end, freq = one hour), the inclusive hourly sequence
from start to stop.  For stop < start the pandas range is empty, which the
Nat subtraction stop + 1 - start = 0 reproduces. -/
def hourly_index (start stop : Nat) : List Nat :=
  (List.range (stop + 1 - start)).map (fun k => start + k)

/-- emptyObs t is the all-NaN row that reindex creates for a missing hour. -/
def emptyObs (t : Nat) : Obs :=
  { snap_time := t, bid := none, mid := none, ask := none }

/-- reindexRow g t embeds one cell of g.reindex(full_idx) (line 50): the row
of g whose snap_time equals t if one exists (pandas assumes the index has no
duplicates, see the comment on line 49), otherwise an all-NaN row. -/
def reindexRow (g : List Obs) (t : Nat) : Obs :=
  match g.find? (fun r => r.snap_time == t) with
  | some r => r
  | none => emptyObs t

/-- expand_group g start stop embeds the body of the per-security loop of
_expand_to_full_grid (lines 47-53): the rows of one security reindexed onto
the full hourly calendar. -/
def expand_group (g : List Obs) (start stop : Nat) : List Obs :=
  (hourly_index start stop).map (reindexRow g)

/-- expand_to_full_grid embeds _expand_to_full_grid (lines 40-56) on the
per-security grouped input (association list security_id to rows, as
produced by groupby).  pd.concat(out) on line 56 raises a ValueError when
out is empty, that is when the input has no security at all; otherwise the
concatenated frame is, group by group, the per-security grids. -/
def expand_to_full_grid (input : List (String × List Obs)) (start stop : Nat) :
    Except String (List (String × List Obs)) :=
  if input.isEmpty then .error "No objects to concatenate"
  else .ok (input.map (fun g => (g.1, expand_group g.2 start stop)))

/-- stdevStep embeds the deque update of lines 84-89 for one column: if the
current value is NaN the deque is untouched, otherwise the value is appended
and, when the length now exceeds the window, the oldest entry (the front) is
dropped. -/
def stdevStep (window : Nat) (dq : List ℚ) (v : Option ℚ) : List ℚ :=
  match v with
  | none => dq
  | some x =>
      let dq2 := dq ++ [x]
      if window < dq2.length then dq2.tail else dq2

/-- qmean embeds arr.mean() on line 78. -/
def qmean (l : List ℚ) : ℚ := l.sum / l.length

/-- qvar embeds the population variance ((arr - mu) ** 2).mean() of line 79
(ddof = 0: the mean of squared deviations, dividing by the length). -/
def qvar (l : List ℚ) : ℚ := (l.map (fun x => (x - qmean l) ^ 2)).sum / l.length

/-- emitVar embeds the emission test of lines 76-79 for one slot: when the
deque holds at least window values, the population variance of its contents
is emitted (its square root is the raw stdev of line 79), otherwise the
output stays NaN. -/
def emitVar (window : Nat) (dq : List ℚ) : Option ℚ :=
  if window ≤ dq.length then some (qvar dq) else none

/-- rollingVars embeds the loop of lines 72-89 for one column, at the
variance level: at each slot the deque is read before the current row
updates it.  The entry at index i is the variance emitted for slot i (none
when fewer than window values are buffered). -/
def rollingVars (window : Nat) (dq : List ℚ) : List (Option ℚ) → List (Option ℚ)
  | [] => []
  | v :: vs => emitVar window dq :: rollingVars window (stdevStep window dq v) vs

/-- EPS is the default eps = 1e-8 of line 63. -/
noncomputable def EPS : ℝ := 1 / 10 ^ 8

/-- applyStdevEps embeds lines 79-81 applied to the emitted variance:
stdev = math.sqrt(var), and tiny results are zeroed, outputs[i] = 0.0 if
stdev < eps else stdev. -/
noncomputable def applyStdevEps (eps : ℝ) (v : ℚ) : ℝ :=
  let stdev := Real.sqrt (v : ℝ)
  if stdev < eps then 0 else stdev

/-- rollingStdevs is the per-column output array of _rolling_stdev_with_deques:
the emitted variances post-processed by sqrt and the epsilon floor. -/
noncomputable def rollingStdevs (window : Nat) (eps : ℝ) (vals : List (Option ℚ)) :
    List (Option ℝ) :=
  (rollingVars window [] vals).map (Option.map (applyStdevEps eps))

/-- ResultRow is one row of the merged result frame of compute_all (line
115): the grid row (security_id kept at the group level) together with the
three stdev output columns of _rolling_stdev_with_deques. -/
structure ResultRow where
  snap_time : Nat
  bid : Option ℚ
  mid : Option ℚ
  ask : Option ℚ
  bid_stdev : Option ℝ
  mid_stdev : Option ℝ
  ask_stdev : Option ℝ

/-- attachRows zips the grid rows of one security with the three per-column
stdev output arrays (the merge on line 115, which pairs out_df with the grid
rows key by key in grid order since the keys agree row for row). -/
def attachRows : List Obs → List (Option ℝ) → List (Option ℝ) → List (Option ℝ) →
    List ResultRow
  | r :: g, b :: bs, m :: ms, a :: bs2 =>
      { snap_time := r.snap_time, bid := r.bid, mid := r.mid, ask := r.ask,
        bid_stdev := b, mid_stdev := m, ask_stdev := a } :: attachRows g bs ms bs2
  | _, _, _, _ => []

/-- rolling_stdev_with_deques embeds the function of the same name (lines
58-94) for one security: the three columns are processed by the one loop
with fully independent per-column state, hence as three per-column passes,
and the outputs are attached to the grid rows. -/
noncomputable def rolling_stdev_with_deques (window : Nat) (eps : ℝ) (g : List Obs) :
    List ResultRow :=
  attachRows g
    (rollingStdevs window eps (g.map (fun r => r.bid)))
    (rollingStdevs window eps (g.map (fun r => r.mid)))
    (rollingStdevs window eps (g.map (fun r => r.ask)))

/-- compute_groups embeds the per-security loop of compute_all (lines
107-116) applied to the expanded grid: groupby over the concatenated grid
yields one group per security that contributes at least one row (the blocks
are contiguous and the ids distinct, so this is the list of nonempty
per-security grids), and each group is run through the deque engine. -/
noncomputable def compute_groups (input : List (String × List Obs)) (start stop : Nat)
    (window : Nat) : List (String × List ResultRow) :=
  ((input.map (fun g => (g.1, expand_group g.2 start stop))).filter
      (fun g => !g.2.isEmpty)).map
    (fun g => (g.1, rolling_stdev_with_deques window EPS g.2))

/-- compute_all embeds compute_all (lines 96-118): expansion, the
per-security engine loop, and the final pd.concat(results) of line 118,
which raises a ValueError when no group produced a result frame.  The
expander itself can raise the same ValueError on an input with no security
(line 56). -/
noncomputable def compute_all (input : List (String × List Obs)) (start stop : Nat)
    (window : Nat) : Except String (List (String × List ResultRow)) :=
  if input.isEmpty then .error "No objects to concatenate"
  else
    let results := compute_groups input start stop window
    if results.isEmpty then .error "No objects to concatenate"
    else .ok results

/-- Calculator embeds the two data attributes of RollingPriceStdevCalculator:
the loaded price frame (grouped by security_id) and the result frame, None
until compute_all has run. -/
structure Calculator where
  price_df : List (String × List Obs)
  result_df : Option (List (String × List ResultRow))

/-- runComputeAll embeds a call of the compute_all method on the object:
on success the result frame is stored in result_df; if the pipeline raises,
the attribute keeps its previous value. -/
noncomputable def runComputeAll (c : Calculator) (start stop : Nat) (window : Nat) :
    Calculator :=
  match compute_all c.price_df start stop window with
  | .ok r => { c with result_df := some r }
  | .error _ => c

/-- save_to_csv embeds save_to_csv (lines 120-125): with no stored result it
raises a ValueError and writes nothing; otherwise it serializes the stored
result (the records written to the CSV are returned). -/
def save_to_csv (c : Calculator) : Except String (List (String × List ResultRow)) :=
  match c.result_df with
  | none => .error "No results found. Run compute_all() first."
  | some r => .ok r

/-! Basic lemmas about the deque engine. -/

theorem stdevStep_length_le {window : Nat} {dq : List ℚ} (v : Option ℚ)
    (h : dq.length ≤ window) : (stdevStep window dq v).length ≤ window := by
  cases v with
  | none => simpa [stdevStep] using h
  | some x =>
      simp only [stdevStep]
      split <;> rename_i hcond <;>
        simp only [List.length_tail, List.length_append, List.length_cons,
          List.length_nil] at hcond ⊢ <;> omega

theorem foldl_stdevStep_length_le {window : Nat} :
    ∀ (l : List (Option ℚ)) (dq : List ℚ), dq.length ≤ window →
      (List.foldl (stdevStep window) dq l).length ≤ window := by
  intro l
  induction l with
  | nil => intro dq h; simpa using h
  | cons v vs ih =>
      intro dq h
      simpa using ih (stdevStep window dq v) (stdevStep_length_le v h)

/-- Closed form for the entries of the rolling pass: the emission at slot i
is computed from the deque obtained by folding the update step over the
first i values, and there is one output entry per input slot. -/
theorem rollingVars_getElem? (window : Nat) :
    ∀ (vals : List (Option ℚ)) (dq : List ℚ) (i : Nat),
      (rollingVars window dq vals)[i]? =
        if i < vals.length then
          some (emitVar window (List.foldl (stdevStep window) dq (vals.take i)))
        else none := by
  intro vals
  induction vals with
  | nil => intro dq i; simp [rollingVars]
  | cons v vs ih =>
      intro dq i
      cases i with
      | zero => simp [rollingVars]
      | succ n => simp [rollingVars, ih (stdevStep window dq v) n, Nat.succ_lt_succ_iff]

theorem rollingVars_length (window : Nat) :
    ∀ (vals : List (Option ℚ)) (dq : List ℚ),
      (rollingVars window dq vals).length = vals.length := by
  intro vals
  induction vals with
  | nil => intro dq; simp [rollingVars]
  | cons v vs ih => intro dq; simp [rollingVars, ih]

theorem rollingStdevs_getD (window : Nat) (eps : ℝ) (vals : List (Option ℚ)) (i : Nat) :
    (rollingStdevs window eps vals).getD i none =
      Option.map (applyStdevEps eps) ((rollingVars window [] vals).getD i none) := by
  simp only [rollingStdevs, List.getD_eq_getElem?_getD, List.getElem?_map]
  cases h : (rollingVars window [] vals)[i]? <;> simp [h]

/-! Concrete scenario inputs used by several claims. -/

/-- valsA is the mid column of scenario A: 25 consecutive hourly slots, all
valid, constant value 5.0. -/
def valsA : List (Option ℚ) := List.replicate 25 (some 5)

/-- gA is the scenario A dataframe group for entity E1: 25 consecutive
hourly rows, mid constant 5.0, bid and ask absent throughout. -/
def gA : List Obs :=
  (List.range 25).map (fun i => { snap_time := i, bid := none, mid := some 5, ask := none })

/-- inputA is the grouped scenario A input, the single entity E1. -/
def inputA : List (String × List Obs) := [("E1", gA)]

/-- valsB is the mid column of scenario B: 25 consecutive hourly slots with
slot 10 missing, value 5.0 elsewhere. -/
def valsB : List (Option ℚ) := (List.range 25).map (fun i => if i = 10 then none else some 5)

/-- applyStdevEps maps a zero variance to the emitted value 0.0: the raw
stdev is sqrt 0 = 0, and both branches of the epsilon test give 0. -/
theorem applyStdevEps_zero (eps : ℝ) : applyStdevEps eps 0 = 0 := by
  simp [applyStdevEps]

set_option maxHeartbeats 1000000 in
/-- Evaluation of the rolling pass on the scenario A mid column: no
emission for the first 20 slots, zero variance afterwards. -/
theorem rollingVars_valsA :
    rollingVars 20 [] valsA = List.replicate 20 none ++ List.replicate 5 (some 0) := by
  norm_num [rollingVars, stdevStep, emitVar, qvar, qmean, valsA, List.replicate]

set_option maxHeartbeats 1000000 in
/-- Evaluation of the rolling pass on the scenario B mid column: the deque
is never cleared at the gap, so slots 21 to 24 still emit (zero) variances
computed from windows that span the missing slot 10. -/
theorem rollingVars_valsB :
    rollingVars 20 [] valsB = List.replicate 21 none ++ List.replicate 4 (some 0) := by
  norm_num [rollingVars, stdevStep, emitVar, qvar, qmean, valsB, List.range_succ,
    List.replicate]

/-- Evaluation of the rolling pass on an all-missing column: the deque
stays empty and nothing is ever emitted. -/
theorem rollingVars_all_none (window : Nat) (hw : 0 < window) (n : Nat) :
    rollingVars window [] (List.replicate n none) = List.replicate n none := by
  induction n with
  | zero => simp [rollingVars]
  | succ m ih =>
      simp [List.replicate_succ, rollingVars, stdevStep, emitVar, ih, Nat.not_le.mpr hw]

/-- valsTiny is a 21-slot column whose first full window (19 zeros and one
value 1e-9) has a tiny but nonzero dispersion. -/
def valsTiny : List (Option ℚ) := List.replicate 19 (some 0) ++ [some (1 / 10 ^ 9), some 0]

/-- vTiny is the population variance of the first full window of valsTiny. -/
def vTiny : ℚ := 19 / 400 / 10 ^ 18

set_option maxHeartbeats 1000000 in
/-- Evaluation of the rolling pass on valsTiny at slot 20: the window of the
20 values of slots 0 to 19 emits the variance vTiny. -/
theorem rollingVars_valsTiny : (rollingVars 20 [] valsTiny).getD 20 none = some vTiny := by
  norm_num [rollingVars, stdevStep, emitVar, qvar, qmean, valsTiny, vTiny, List.replicate,
    List.getD_cons_succ, List.getD_cons_zero]

/-!
Claim theorems.
-/

/-- C8: for every field and every point during the forward pass of the
engine (the deque after consuming any prefix of the column, which by
rollingVars_getElem? is exactly the buffer read before each emission and
left by each update), the buffer length never exceeds window_size. -/
theorem claim_C8_buffer_bounded (window : Nat) (vals : List (Option ℚ)) (n : Nat) :
    (List.foldl (stdevStep window) [] (vals.take n)).length ≤ window :=
  foldl_stdevStep_length_le (vals.take n) [] (by simp)

/-- C4: the statistic emitted at a slot never depends on the value at that
slot: two columns of equal length that agree everywhere except possibly at
slot i produce the same emitted statistic at slot i. -/
theorem claim_C4_no_lookahead (vals vals2 : List (Option ℚ)) (i : Nat)
    (hlen : vals.length = vals2.length)
    (h : ∀ j, j ≠ i → vals.getD j none = vals2.getD j none) :
    (rollingStdevs 20 EPS vals).getD i none = (rollingStdevs 20 EPS vals2).getD i none := by
  have hget : ∀ n, n ≠ i → vals[n]? = vals2[n]? := by
    intro n hn
    have hd := h n hn
    rw [List.getD_eq_getElem?_getD, List.getD_eq_getElem?_getD] at hd
    by_cases hlt : n < vals.length
    · have h2 : n < vals2.length := by omega
      rw [List.getElem?_eq_getElem hlt, List.getElem?_eq_getElem h2]
      rw [List.getElem?_eq_getElem hlt, List.getElem?_eq_getElem h2] at hd
      simpa using hd
    · rw [List.getElem?_eq_none (by omega), List.getElem?_eq_none (by omega)]
  have htake : vals.take i = vals2.take i := by
    apply List.ext_getElem?
    intro n
    by_cases hni : n < i
    · rw [List.getElem?_take_of_lt hni, List.getElem?_take_of_lt hni]
      exact hget n (by omega)
    · rw [List.getElem?_eq_none (by simp [List.length_take]; omega),
        List.getElem?_eq_none (by simp [List.length_take]; omega)]
  rw [rollingStdevs_getD, rollingStdevs_getD, List.getD_eq_getElem?_getD,
    List.getD_eq_getElem?_getD, rollingVars_getElem?, rollingVars_getElem?, htake, hlen]

/-- Witness for C4: the singleton columns with values 1 and 2 differ only at
slot 0 and get the same (missing) statistic there. -/
theorem claim_C4_no_lookahead_witness :
    ([some (1 : ℚ)].length = [some (2 : ℚ)].length
      ∧ (∀ j, j ≠ 0 → [some (1 : ℚ)].getD j none = [some (2 : ℚ)].getD j none))
    ∧ (rollingStdevs 20 EPS [some 1]).getD 0 none
        = (rollingStdevs 20 EPS [some 2]).getD 0 none := by
  have hj : ∀ j, j ≠ 0 → [some (1 : ℚ)].getD j none = [some (2 : ℚ)].getD j none := by
    intro j hj
    cases j with
    | zero => exact absurd rfl hj
    | succ n => simp
  exact ⟨⟨rfl, hj⟩, claim_C4_no_lookahead [some 1] [some 2] 0 rfl hj⟩

/-- C7: the epsilon floor of the emission step.  Whenever the engine emits
at slot i and the raw stdev (the square root of the emitted variance) is
positive but below 1e-8, the reported value is exactly 0.0; when the raw
stdev is at least 1e-8 the reported value is the raw stdev itself. -/
theorem claim_C7_epsilon_floor (vals : List (Option ℚ)) (i : Nat) (v : ℚ)
    (hv : (rollingVars 20 [] vals).getD i none = some v) :
    (0 < Real.sqrt (v : ℝ) → Real.sqrt (v : ℝ) < EPS →
        (rollingStdevs 20 EPS vals).getD i none = some 0)
    ∧ (EPS ≤ Real.sqrt (v : ℝ) →
        (rollingStdevs 20 EPS vals).getD i none = some (Real.sqrt (v : ℝ))) := by
  rw [rollingStdevs_getD, hv]
  constructor
  · intro _ hlt
    simp [applyStdevEps, if_pos hlt]
  · intro hge
    simp [applyStdevEps, if_neg (not_lt.mpr hge)]

/-- Witness for C7: on valsTiny the raw stdev at slot 20 is positive but
below 1e-8, and the pipeline reports exactly 0.0 there. -/
theorem claim_C7_epsilon_floor_witness :
    (rollingVars 20 [] valsTiny).getD 20 none = some vTiny
    ∧ 0 < Real.sqrt (vTiny : ℝ)
    ∧ Real.sqrt (vTiny : ℝ) < EPS
    ∧ (rollingStdevs 20 EPS valsTiny).getD 20 none = some 0 := by
  have hv := rollingVars_valsTiny
  have h1 : 0 < Real.sqrt (vTiny : ℝ) := by
    apply Real.sqrt_pos.mpr
    norm_num [vTiny]
  have h2 : Real.sqrt (vTiny : ℝ) < EPS := by
    rw [show (EPS : ℝ) = Real.sqrt (EPS ^ 2) from
      (Real.sqrt_sq (by norm_num [EPS])).symm]
    apply Real.sqrt_lt_sqrt (by norm_num [vTiny])
    norm_num [vTiny, EPS]
  exact ⟨hv, h1, h2, (claim_C7_epsilon_floor valsTiny 20 vTiny hv).1 h1 h2⟩

/-- C1 (evaluation at the failing input): on the scenario B column the
value at slot 10 is missing and the values at slots 11 to 21 are valid, yet
the engine still emits a statistic at slot 21, computed from a window that
spans the gap: the buffer is never cleared at a gap. -/
theorem claim_C1_window_spans_gap :
    valsB.getD 10 none = none ∧ valsB.getD 21 none = some 5
    ∧ List.foldl (stdevStep 20) [] (valsB.take 21) = List.replicate 20 (5 : ℚ)
    ∧ (rollingStdevs 20 EPS valsB).getD 21 none = some 0 := by
  refine ⟨by norm_num [valsB, List.range_succ], by norm_num [valsB, List.range_succ], ?_, ?_⟩
  · norm_num [valsB, List.range_succ, stdevStep, List.replicate]
  · rw [rollingStdevs_getD, rollingVars_valsB]
    norm_num [List.replicate, applyStdevEps_zero]

/-- C2 (evaluation at the failing input): on scenario B (25 hourly slots,
slot 10 missing) the claim expects every emitted mid statistic to be
missing, but the engine emits 0.0 at slots 21 to 24. -/
theorem claim_C2_gap_scenario_emits :
    rollingStdevs 20 EPS valsB
      = List.replicate 21 none ++ List.replicate 4 (some (0 : ℝ)) := by
  rw [rollingStdevs, rollingVars_valsB]
  simp [applyStdevEps_zero]

/-! Lemmas about the calendar expander. -/

theorem hourly_index_eq_nil {start stop : Nat} (h : stop < start) :
    hourly_index start stop = [] := by
  simp [hourly_index, Nat.sub_eq_zero_of_le (by omega : stop + 1 ≤ start)]

theorem hourly_index_ne_nil {start stop : Nat} (h : start ≤ stop) :
    hourly_index start stop ≠ [] := by
  simp only [hourly_index, ne_eq, List.map_eq_nil_iff, List.range_eq_nil]
  omega

theorem hourly_index_nodup (start stop : Nat) : (hourly_index start stop).Nodup :=
  List.Nodup.map (fun a b hab => by omega) (List.nodup_range _)

theorem mem_hourly_index {start stop t : Nat} (h : start ≤ stop) :
    t ∈ hourly_index start stop ↔ (start ≤ t ∧ t ≤ stop) := by
  simp only [hourly_index, List.mem_map, List.mem_range]
  constructor
  · rintro ⟨k, hk, rfl⟩; omega
  · rintro ⟨h1, h2⟩; exact ⟨t - start, by omega, by omega⟩

theorem find?_eq_of_mem_nodup {g : List Obs} {r : Obs}
    (hnd : (g.map (fun x => x.snap_time)).Nodup) (hr : r ∈ g) :
    g.find? (fun x => x.snap_time == r.snap_time) = some r := by
  induction g with
  | nil => cases hr
  | cons a tl ih =>
      rcases List.mem_cons.mp hr with rfl | htl
      · simp [List.find?]
      · have hmem : r.snap_time ∈ tl.map (fun x => x.snap_time) :=
          List.mem_map.mpr ⟨r, htl, rfl⟩
        have hna : a.snap_time ∉ tl.map (fun x => x.snap_time) :=
          (List.nodup_cons.mp hnd).1
        have hne : (a.snap_time == r.snap_time) = false := by
          apply beq_eq_false_iff_ne.mpr
          intro he
          exact hna (he ▸ hmem)
        rw [List.find?_cons_of_neg _ (by simp [hne])]
        exact ih (List.nodup_cons.mp hnd).2 htl

theorem reindexRow_snap_time (g : List Obs) (t : Nat) :
    (reindexRow g t).snap_time = t := by
  rw [reindexRow]
  cases hfind : g.find? (fun x => x.snap_time == t) with
  | none => rfl
  | some r =>
      have := List.find?_some hfind
      simpa using this

theorem reindexRow_of_mem {g : List Obs} {r : Obs}
    (hnd : (g.map (fun x => x.snap_time)).Nodup) (hr : r ∈ g) :
    reindexRow g r.snap_time = r := by
  rw [reindexRow, find?_eq_of_mem_nodup hnd hr]

theorem reindexRow_of_not_mem {g : List Obs} {t : Nat}
    (hno : ∀ r ∈ g, r.snap_time ≠ t) : reindexRow g t = emptyObs t := by
  rw [reindexRow, List.find?_eq_none.mpr (by intro x hx; simpa using hno x hx)]

theorem expand_group_isEmpty_false {g : List Obs} {start stop : Nat}
    (h : start ≤ stop) : (expand_group g start stop).isEmpty = false := by
  cases hidx : hourly_index start stop with
  | nil => exact absurd hidx (hourly_index_ne_nil h)
  | cons a l => simp [expand_group, hidx]

/-- C5: for an entity with no duplicate timestamps and a well-ordered range,
the expander yields exactly one row per hourly instant of the arithmetic
sequence from start to stop (same timestamps, no duplicates), carrying the
observed row where an exact timestamp match exists and an all-missing row
elsewhere, and every produced row lies inside the range (observations
outside the range are dropped). -/
theorem claim_C5_calendar_expander (g : List Obs) (start stop : Nat)
    (h : start ≤ stop) (hnd : (g.map (fun x => x.snap_time)).Nodup) :
    (expand_group g start stop).map (fun r => r.snap_time) = hourly_index start stop
    ∧ (hourly_index start stop).Nodup
    ∧ (∀ t, t ∈ hourly_index start stop ↔ (start ≤ t ∧ t ≤ stop))
    ∧ (∀ r ∈ g, start ≤ r.snap_time → r.snap_time ≤ stop →
        r ∈ expand_group g start stop)
    ∧ (∀ t, start ≤ t → t ≤ stop → (∀ r ∈ g, r.snap_time ≠ t) →
        emptyObs t ∈ expand_group g start stop)
    ∧ (∀ r ∈ expand_group g start stop, start ≤ r.snap_time ∧ r.snap_time ≤ stop) := by
  refine ⟨?_, hourly_index_nodup start stop, fun t => mem_hourly_index h, ?_, ?_, ?_⟩
  · rw [expand_group, List.map_map]
    have h1 : ((fun r => r.snap_time) ∘ reindexRow g) = fun t => t := by
      funext t
      simp [Function.comp, reindexRow_snap_time]
    rw [h1]
    simp
  · intro r hr h1 h2
    have hmem : r.snap_time ∈ hourly_index start stop :=
      (mem_hourly_index h).mpr ⟨h1, h2⟩
    exact List.mem_map.mpr ⟨r.snap_time, hmem, reindexRow_of_mem hnd hr⟩
  · intro t h1 h2 hno
    have hmem : t ∈ hourly_index start stop := (mem_hourly_index h).mpr ⟨h1, h2⟩
    exact List.mem_map.mpr ⟨t, hmem, reindexRow_of_not_mem hno⟩
  · intro r hr
    rcases List.mem_map.mp hr with ⟨t, ht, rfl⟩
    rw [reindexRow_snap_time]
    exact (mem_hourly_index h).mp ht

/-- Witness for C5: a single observation at hour 1 expanded onto the range
from hour 0 to hour 2. -/
theorem claim_C5_calendar_expander_witness :
    ((0 : Nat) ≤ 2
      ∧ (([⟨1, some 3, some 4, some 5⟩] : List Obs).map (fun x => x.snap_time)).Nodup)
    ∧ (expand_group [⟨1, some 3, some 4, some 5⟩] 0 2).map (fun r => r.snap_time)
        = hourly_index 0 2 :=
  ⟨⟨by decide, by decide⟩,
    (claim_C5_calendar_expander [⟨1, some 3, some 4, some 5⟩] 0 2 (by decide) (by decide)).1⟩

/-- C6 (counterexample): with stop earlier than start the expander does not
fail at all: it returns normally, with an empty calendar and hence an empty
grid for every entity.  No InvalidRangeError exists in the code. -/
theorem claim_C6_counterexample :
    expand_to_full_grid [("E1", [⟨4, some 1, some 1, some 1⟩])] 5 3
      = .ok [("E1", [])] := by
  norm_num [expand_to_full_grid, expand_group, hourly_index]

/-- C6 (amended): for stop earlier than start the run does abort with no
result, but not through an InvalidRangeError raised by the expander: the
expander completes normally with an all-empty grid, and the final
concatenation of the per-entity results then raises the generic pandas
ValueError for an empty concatenation. -/
theorem claim_C6_amended (input : List (String × List Obs)) (start stop : Nat)
    (window : Nat) (h : stop < start) (hne : input ≠ []) :
    expand_to_full_grid input start stop
        = .ok (input.map (fun g => (g.1, ([] : List Obs))))
    ∧ compute_all input start stop window = .error "No objects to concatenate" := by
  have hie : input.isEmpty = false := by
    cases input with
    | nil => exact absurd rfl hne
    | cons a l => rfl
  have hexp : ∀ g : List Obs, expand_group g start stop = [] := by
    intro g
    simp [expand_group, hourly_index_eq_nil h]
  have hcg : compute_groups input start stop window = [] := by
    rw [compute_groups]
    have : ∀ p ∈ input.map (fun g => (g.1, expand_group g.2 start stop)),
        (fun g => !g.2.isEmpty) p = false := by
      intro p hp
      rcases List.mem_map.mp hp with ⟨b, hb, rfl⟩
      simp [hexp]
    rw [List.filter_eq_nil_iff.mpr (by intro a ha; simp [this a ha])]
    rfl
  constructor
  · simp only [expand_to_full_grid, hie, Bool.false_eq_true, if_false]
    congr 1
    exact List.map_congr_left (fun a _ => by rw [hexp])
  · simp [compute_all, hie, hcg]

/-- Witness for C6 (amended): a one-entity input with stop 3 earlier than
start 5 makes the whole run abort with the pandas concatenation error. -/
theorem claim_C6_amended_witness :
    ((3 : Nat) < 5
      ∧ ([("E1", [(⟨4, some 1, some 1, some 1⟩ : Obs)])] : List (String × List Obs)) ≠ [])
    ∧ compute_all [("E1", [⟨4, some 1, some 1, some 1⟩])] 5 3 20
        = .error "No objects to concatenate" :=
  ⟨⟨by decide, List.cons_ne_nil _ _⟩,
    (claim_C6_amended [("E1", [⟨4, some 1, some 1, some 1⟩])] 5 3 20 (by decide)
      (List.cons_ne_nil _ _)).2⟩

/-- C9: two entities carrying the same rows over the same range get the
same result records (apart from the entity identifier), and swapping the
processing order permutes the output blocks without changing either
entity's records: the per-entity computation has no shared state. -/
theorem claim_C9_entity_independence (e1 e2 : String) (g : List Obs)
    (start stop : Nat) (window : Nat) (h : start ≤ stop) :
    ∃ R, compute_groups [(e1, g), (e2, g)] start stop window = [(e1, R), (e2, R)]
      ∧ compute_groups [(e2, g), (e1, g)] start stop window = [(e2, R), (e1, R)] := by
  refine ⟨rolling_stdev_with_deques window EPS (expand_group g start stop), ?_, ?_⟩ <;>
    simp [compute_groups, List.filter, expand_group_isEmpty_false h]

/-- Witness for C9: two entities with the same (empty) observation list over
the one-slot range. -/
theorem claim_C9_entity_independence_witness :
    (0 : Nat) ≤ 0
    ∧ ∃ R, compute_groups [("E1", []), ("E2", [])] 0 0 20 = [("E1", R), ("E2", R)]
      ∧ compute_groups [("E2", []), ("E1", [])] 0 0 20 = [("E2", R), ("E1", R)] :=
  ⟨Nat.le_refl 0, claim_C9_entity_independence "E1" "E2" [] 0 0 20 (Nat.le_refl 0)⟩

/-- C10: calling save_to_csv while the stored result is absent raises the
ValueError and writes nothing; after a successful compute_all run the saved
records are exactly the stored result, which is unchanged by saving. -/
theorem claim_C10_save_guard (c : Calculator) (start stop : Nat) (window : Nat)
    (r : List (String × List ResultRow))
    (h1 : c.result_df = none)
    (h2 : compute_all c.price_df start stop window = .ok r) :
    save_to_csv c = .error "No results found. Run compute_all() first."
    ∧ (runComputeAll c start stop window).result_df = some r
    ∧ save_to_csv (runComputeAll c start stop window) = .ok r := by
  refine ⟨?_, ?_, ?_⟩
  · simp [save_to_csv, h1]
  · simp [runComputeAll, h2]
  · simp [runComputeAll, h2, save_to_csv]

/-- obs0 is a single fully valid observation at hour 0. -/
def obs0 : Obs := { snap_time := 0, bid := some 1, mid := some 2, ask := some 3 }

/-- calc0 is a freshly loaded calculator: one entity, no stored result. -/
def calc0 : Calculator := { price_df := [("E1", [obs0])], result_df := none }

/-- res0 is the result of running calc0 over the one-slot range at hour 0:
one row, statistics all missing (the buffer never fills). -/
def res0 : List (String × List ResultRow) :=
  [("E1", [{ snap_time := 0, bid := some 1, mid := some 2, ask := some 3,
             bid_stdev := none, mid_stdev := none, ask_stdev := none }])]

/-- Witness for C10: saving before computing raises, and computing over the
one-slot range stores res0. -/
theorem claim_C10_save_guard_witness :
    (calc0.result_df = none ∧ compute_all calc0.price_df 0 0 20 = .ok res0)
    ∧ save_to_csv calc0 = .error "No results found. Run compute_all() first." := by
  have h2 : compute_all calc0.price_df 0 0 20 = .ok res0 := rfl
  exact ⟨⟨rfl, h2⟩, (claim_C10_save_guard calc0 0 0 20 res0 rfl h2).1⟩

/-! Scenario A evaluated through the whole pipeline. -/

theorem gA_snap_times : gA.map (fun r => r.snap_time) = List.range 25 := by
  rw [gA, List.map_map]
  have hco : ((fun r => r.snap_time) ∘ fun i =>
      ({ snap_time := i, bid := none, mid := some 5, ask := none } : Obs)) = fun i => i := by
    funext i
    rfl
  rw [hco]
  simp

theorem reindexRow_gA (i : Nat) (hi : i < 25) :
    reindexRow gA i = { snap_time := i, bid := none, mid := some 5, ask := none } := by
  have hnd : (gA.map (fun r => r.snap_time)).Nodup := by
    rw [gA_snap_times]
    exact List.nodup_range _
  have hmem : ({ snap_time := i, bid := none, mid := some 5, ask := none } : Obs) ∈ gA :=
    List.mem_map.mpr ⟨i, List.mem_range.mpr hi, rfl⟩
  have h2 : gA.find? (fun x => x.snap_time == i)
      = some { snap_time := i, bid := none, mid := some 5, ask := none } :=
    find?_eq_of_mem_nodup hnd hmem
  simp only [reindexRow, h2]

theorem expand_group_gA : expand_group gA 0 24 = gA := by
  have hidx : hourly_index 0 24 = List.range 25 := by
    norm_num [hourly_index]
  rw [expand_group, hidx]
  conv_rhs => rw [gA]
  exact List.map_congr_left (fun i hi => reindexRow_gA i (List.mem_range.mp hi))

theorem gA_bid_col : gA.map (fun r => r.bid) = List.replicate 25 (none : Option ℚ) := by
  apply List.eq_replicate_iff.mpr
  refine ⟨by simp [gA], ?_⟩
  intro b hb
  rcases List.mem_map.mp hb with ⟨r, hr, rfl⟩
  rcases List.mem_map.mp hr with ⟨i, hi, rfl⟩
  rfl

theorem gA_mid_col : gA.map (fun r => r.mid) = valsA := by
  apply List.eq_replicate_iff.mpr
  refine ⟨by simp [gA], ?_⟩
  intro b hb
  rcases List.mem_map.mp hb with ⟨r, hr, rfl⟩
  rcases List.mem_map.mp hr with ⟨i, hi, rfl⟩
  rfl

theorem gA_ask_col : gA.map (fun r => r.ask) = List.replicate 25 (none : Option ℚ) := by
  apply List.eq_replicate_iff.mpr
  refine ⟨by simp [gA], ?_⟩
  intro b hb
  rcases List.mem_map.mp hb with ⟨r, hr, rfl⟩
  rcases List.mem_map.mp hr with ⟨i, hi, rfl⟩
  rfl

theorem rollingStdevs_all_none :
    rollingStdevs 20 EPS (List.replicate 25 none) = List.replicate 25 none := by
  rw [rollingStdevs, rollingVars_all_none 20 (by norm_num) 25]
  simp

theorem rollingStdevs_valsA :
    rollingStdevs 20 EPS valsA
      = List.replicate 20 none ++ List.replicate 5 (some (0 : ℝ)) := by
  rw [rollingStdevs, rollingVars_valsA]
  simp [applyStdevEps_zero]

theorem compute_groups_inputA :
    compute_groups inputA 0 24 20
      = [("E1", attachRows gA (List.replicate 25 none)
          (List.replicate 20 none ++ List.replicate 5 (some (0 : ℝ)))
          (List.replicate 25 none))] := by
  have hne : gA.isEmpty = false := by rw [gA]; rfl
  have hfilter : ([("E1", gA)] : List (String × List Obs)).filter (fun g => !g.2.isEmpty)
      = [("E1", gA)] := by
    simp [hne]
  rw [compute_groups]
  simp only [inputA, List.map_cons, List.map_nil, expand_group_gA]
  rw [hfilter]
  simp only [List.map_cons, List.map_nil]
  rw [rolling_stdev_with_deques, gA_bid_col, gA_mid_col, gA_ask_col,
    rollingStdevs_all_none, rollingStdevs_valsA]

/-- expectedA is the scenario A result block the code produces for E1: the
mid statistic is missing at slots 0 to 19 and exactly 0.0 at slots 20 to 24
(bid and ask columns are entirely missing in the input, so their statistics
are missing everywhere). -/
noncomputable def expectedA : List ResultRow :=
  (List.range 25).map (fun i =>
    { snap_time := i, bid := none, mid := some 5, ask := none,
      bid_stdev := none, mid_stdev := if 20 ≤ i then some (0 : ℝ) else none,
      ask_stdev := none })

set_option maxHeartbeats 1000000 in
/-- C3 (amended): on scenario A (25 consecutive valid hourly slots, mid
constant 5.0, window 20) the pipeline emits a missing mid statistic at slots
0 to 19 and exactly 0.0 at slots 20 to 24: the first slot with a full window
of 20 strictly preceding values is slot 20, not slot 19. -/
theorem claim_C3_amended : compute_groups inputA 0 24 20 = [("E1", expectedA)] := by
  rw [compute_groups_inputA]
  norm_num [gA, expectedA, attachRows, List.range_succ, List.replicate]

set_option maxHeartbeats 1000000 in
/-- C3 (counterexample): the claim expects mid_stdev = 0.0 at slot 19, but
the pipeline leaves slot 19 missing (only 19 valid values strictly precede
it). -/
theorem claim_C3_counterexample :
    (((compute_groups inputA 0 24 20).getD 0 ("", [])).2.getD 19
      { snap_time := 0, bid := none, mid := none, ask := none,
        bid_stdev := none, mid_stdev := some 1, ask_stdev := none }).mid_stdev = none := by
  rw [compute_groups_inputA]
  norm_num [gA, attachRows, List.range_succ, List.replicate, List.getD_cons_succ,
    List.getD_cons_zero]

end CalcRollingStdev
